import Mathlib

/-!
The package go-s3-uploader: a shallow embedding of `upload.go`.

The uploader is one linear procedure, `S3.UploadFile`, that talks to an
external object-storage provider.  The provider, the configuration loader and
the secure random source are the only sources of non-determinism; they are
gathered in the structure `Provider`, over which every theorem quantifies.
Every request that is sent to the provider is recorded, in order, in
`World.calls`; every log line in `World.logs`.

A Go `error` is `Option Err` (`none` is `nil`), a Go pointer result is an
`Option`, and dereferencing a `nil` pointer is the outcome `panicked`.
-/

namespace S3Uploader

/-- A Go `byte`. -/
abbrev Byte := Fin 256

/-- Concrete type of the `smithy.APIError` found in an error chain: the type
switch of `bucketExists` only tells `*types.NotFound` from everything else. -/
inductive APIErrorType where
  | NotFound
  | Other (code : String)
  deriving DecidableEq, Repr

/-- A Go `error` value.  `asAPIError` is what `errors.As(err, &apiError)` finds:
`none` when no error of the chain is a `smithy.APIError`. -/
structure Err where
  msg : String
  asAPIError : Option APIErrorType
  deriving DecidableEq, Repr

/-- The struct `Config`: credential-source locations. -/
structure Config where
  AWSConfigFile : String
  AWSSharedCredentialsFile : String
  deriving DecidableEq, Repr

/-- The struct `RetentionConfig`; `Time` is the absolute instant of `time.Time`. -/
structure RetentionConfig where
  Use : Bool
  Time : Int
  deriving DecidableEq, Repr

/-- The part of `aws.Config` the uploader reads.  The Go zero value has the
empty region. -/
structure AwsConfig where
  Region : String
  deriving DecidableEq, Repr

/-- The Go zero value of `aws.Config`. -/
def AwsConfig.zero : AwsConfig := ⟨""⟩

/-- A `*awss3.Client`, as built by `awss3.NewFromConfig`. -/
structure Client where
  cfg : AwsConfig
  deriving DecidableEq, Repr

/-- The constructor `awss3.NewFromConfig`. -/
def NewFromConfig (cfg : AwsConfig) : Client := ⟨cfg⟩

/-- The struct `S3` (the logger `Lo` is the log of `World`). -/
structure S3 where
  AWSConfig : Option Config
  BucketName : String
  RetentionConfig : Option RetentionConfig
  client : Option Client
  loadedConfig : AwsConfig
  deriving DecidableEq, Repr

/-- The type `UploadId`. -/
abbrev UploadId := String

/-- Canned bucket ACLs (`types.BucketCannedACL`). -/
inductive BucketCannedACL where
  | Private
  | PublicRead
  | PublicReadWrite
  | AuthenticatedRead
  deriving DecidableEq, Repr

/-- The enumeration `types.BucketVersioningStatus`. -/
inductive BucketVersioningStatus where
  | Enabled
  | Suspended
  deriving DecidableEq, Repr

/-- The enumeration `types.ObjectLockRetentionMode`. -/
inductive ObjectLockRetentionMode where
  | Governance
  | Compliance
  deriving DecidableEq, Repr

/-- A request sent to the provider, with the fields the uploader fills in. -/
inductive Call where
  | HeadBucket (Bucket : String)
  | CreateBucket (Bucket : String) (ACL : BucketCannedACL)
      (ObjectLockEnabledForBucket : Bool) (LocationConstraint : String)
  | PutBucketVersioning (Bucket : String) (Status : BucketVersioningStatus)
  | PutObject (Bucket : String) (Key : String) (Body : List Byte)
  | PutObjectRetention (Bucket : String) (Key : String)
      (Mode : ObjectLockRetentionMode) (RetainUntilDate : Int)
  deriving DecidableEq, Repr

/-- The log lines of `upload.go`, one constructor per call of `s3.Lo`. -/
inductive LogEvent where
  | bucketAvailable (name : String)
  | bucketAccessError (bucket : String) (error : Err)
  | bucketExistsOwned (bucket : String)
  | createBucketError (bucket : String) (error : Err)
  | versioningError (bucket : String) (error : Err)
  | configError (error : Err)
  | createFailed
  | uploaded (uploadId : UploadId) (bucket : String)
  | retentionError (error : Err)
  deriving DecidableEq, Repr

/-- Everything outside the program: the configuration loader (which reads the
process environment), the provider behind a client, and the secure random
source of `crypto/rand`. -/
structure Provider where
  LoadDefaultConfig : List (String × String) → Except Err AwsConfig
  respond : Client → Call → Option Err
  randFail : Option Err
  randStream : Nat → Byte

/-- Observable state: the process environment, the provider calls made so far
(oldest first) and the log. -/
structure World where
  env : List (String × String)
  calls : List Call
  logs : List LogEvent
  deriving DecidableEq, Repr

/-- The call `os.Setenv`. -/
def World.Setenv (w : World) (k v : String) : World :=
  { w with env := (k, v) :: w.env.filter (fun kv => kv.1 != k) }

/-- Record a provider call. -/
def World.call (w : World) (c : Call) : World :=
  { w with calls := w.calls ++ [c] }

/-- Record a log line. -/
def World.log (w : World) (l : LogEvent) : World :=
  { w with logs := w.logs ++ [l] }

/-- The table `hextable` of `encoding/hex`. -/
def hextable : List Char :=
  ['0', '1', '2', '3', '4', '5', '6', '7', '8', '9', 'a', 'b', 'c', 'd', 'e', 'f']

/-- Indexing `hextable[i]`. -/
def hexDigit (i : Nat) : Char := hextable.getD i '0'

/-- The function `hex.EncodeToString`: two digits per byte, high nibble first. -/
def EncodeToString (src : List Byte) : String :=
  String.mk (src.flatMap fun v => [hexDigit (v.val >>> 4), hexDigit (v.val &&& 0x0f)])

/-- The call `rand.Read(b)` on a buffer of `n` bytes: the buffer is filled, or
an error is returned. -/
def randRead (p : Provider) (n : Nat) : Except Err (List Byte) :=
  match p.randFail with
  | some e => .error e
  | none => .ok ((List.range n).map p.randStream)

/-- The function `generateRandomString`: `(*string, error)`. -/
def generateRandomString (p : Provider) (numBytes : Nat) : Option String × Option Err :=
  match randRead p numBytes with
  | .error err => (none, some err)
  | .ok randomBytes => (some (EncodeToString randomBytes), none)

/-- Result of a method that may dereference a `nil` pointer. -/
inductive Result (α : Type) where
  | ok (a : α)
  | panic
  deriving DecidableEq, Repr

/-- The method `S3.bucketExists`: `(bool, error)`. -/
def bucketExists (p : Provider) (s3 : S3) (w : World) : Result (Bool × Option Err) × World :=
  match s3.client with
  | none => (.panic, w)
  | some client =>
    let req := Call.HeadBucket s3.BucketName
    let err := p.respond client req
    let w := w.call req
    match err with
    | some e =>
      match e.asAPIError with
      | some .NotFound => (.ok (false, none), w.log (.bucketAvailable s3.BucketName))
      | some (.Other _) => (.ok (true, some e), w.log (.bucketAccessError s3.BucketName e))
      | none => (.ok (true, some e), w)
    | none => (.ok (true, none), w.log (.bucketExistsOwned s3.BucketName))

/-- The method `S3.createBucket`: `error`. -/
def createBucket (p : Provider) (s3 : S3) (w : World) : Result (Option Err) × World :=
  match s3.client with
  | none => (.panic, w)
  | some client =>
    let lock := true
    let req := Call.CreateBucket s3.BucketName .Private lock s3.loadedConfig.Region
    let err := p.respond client req
    let w := w.call req
    let w := match err with
      | some e => w.log (.createBucketError s3.BucketName e)
      | none => w
    match s3.RetentionConfig with
    | some _ =>
      let req := Call.PutBucketVersioning s3.BucketName .Enabled
      let w := w.call req
      match p.respond client req with
      | some err => (.ok (some err), w.log (.versioningError s3.BucketName err))
      | none => (.ok err, w)
    | none => (.ok err, w)

/-- How a call of `UploadFile` ends: it returns `(*UploadId, error)`, or it
panics on a `nil` dereference. -/
inductive Outcome where
  | returned (uploadId : Option UploadId) (err : Option Err)
  | panicked
  deriving DecidableEq, Repr

/-- A finished call of `UploadFile`: outcome, receiver afterwards, world afterwards. -/
structure Run where
  outcome : Outcome
  s3 : S3
  world : World
  deriving DecidableEq, Repr

/-- The key built in `UploadFile`: `*randomString + identifier`. -/
def uploadKey (randomString : String) (identifier : String) : String :=
  randomString ++ identifier

/-- The tail of `UploadFile`, from `generateRandomString(6)` on. -/
def UploadFile.store (p : Provider) (s3 : S3) (client : Client) (data : List Byte)
    (identifier : String) (w : World) : Run :=
  match (generateRandomString p 6).1 with
  | none => ⟨.panicked, s3, w⟩
  | some randomString =>
    let key := uploadKey randomString identifier
    let uploadId : UploadId := key
    let req := Call.PutObject s3.BucketName key data
    let _err := p.respond client req
    let w := w.call req
    let w := w.log (.uploaded uploadId s3.BucketName)
    match s3.RetentionConfig with
    | some rc =>
      if rc.Use then
        let req := Call.PutObjectRetention s3.BucketName key .Compliance rc.Time
        let w := w.call req
        match p.respond client req with
        | some err => ⟨.returned (some uploadId) none, s3, w.log (.retentionError err)⟩
        | none => ⟨.returned (some uploadId) none, s3, w⟩
      else ⟨.returned (some uploadId) none, s3, w⟩
    | none => ⟨.returned (some uploadId) none, s3, w⟩

/-- The first statement of `UploadFile`: when `AWSConfig` is set, its two paths
are exported to the process environment. -/
def exportCredentials (s3 : S3) (w : World) : World :=
  match s3.AWSConfig with
  | some c =>
    (w.Setenv "AWS_CONFIG_FILE" c.AWSConfigFile).Setenv
      "AWS_SHARED_CREDENTIALS_FILE" c.AWSSharedCredentialsFile
  | none => w

/-- The method `S3.UploadFile`, run in the process environment `env`. -/
def UploadFile (p : Provider) (s3 : S3) (env : List (String × String)) (data : List Byte)
    (identifier : String) : Run :=
  let w := exportCredentials s3 ⟨env, [], []⟩
  match p.LoadDefaultConfig w.env with
  | .error err => ⟨.returned none (some err), s3, w.log (.configError err)⟩
  | .ok cfg =>
    let client := NewFromConfig cfg
    let s3 := { s3 with client := some client }
    match bucketExists p s3 w with
    | (.panic, w) => ⟨.panicked, s3, w⟩
    | (.ok (bucketExists, _), w) =>
      if !bucketExists then
        match createBucket p s3 w with
        | (.panic, w) => ⟨.panicked, s3, w⟩
        | (.ok (some err), w) => ⟨.returned none (some err), s3, w.log .createFailed⟩
        | (.ok none, w) => UploadFile.store p s3 client data identifier w
      else UploadFile.store p s3 client data identifier w

/-- The calls of the absent-bucket scenario: `HeadBucket`, `CreateBucket`, `PutObject`. -/
def Call.isBucketOrPut : Call → Bool
  | .HeadBucket _ => true
  | .CreateBucket _ _ _ _ => true
  | .PutObject _ _ _ => true
  | _ => false

/-! ## The caller of `example/example.go` -/

namespace Example

/-- The value `testData`, as the bytes of `[]byte(testData)`. -/
def testData : List Byte := "this is some data".toList.map fun c => Fin.ofNat c.toNat

/-- The value `fileIdentifier`. -/
def fileIdentifier : String := "file-id"

/-- The receiver `s` built in `main`; `retainUntil` stands for
`time.Now().AddDate(0, 0, 1)`.  The unexported fields hold their zero values. -/
def s (retainUntil : Int) : S3 :=
  { AWSConfig := some ⟨"/Users/suhailgupta/go-s3-uploader/config",
      "/Users/suhailgupta/go-s3-uploader/credentials"⟩
    BucketName := "test-foo-xyz"
    RetentionConfig := some ⟨true, retainUntil⟩
    client := none
    loadedConfig := AwsConfig.zero }

/-- The same receiver without a retention configuration. -/
def plain : S3 := { s 0 with RetentionConfig := none }

end Example

/-! ## Concrete providers -/

namespace Scenario

/-- A `NotFound` API error. -/
def notFound : Err := ⟨"NotFound: Not Found", some .NotFound⟩

/-- An API error that is not `NotFound`. -/
def accessDenied : Err := ⟨"AccessDenied: Access Denied", some (.Other "AccessDenied")⟩

/-- An error that is no `smithy.APIError` at all. -/
def timedOut : Err := ⟨"dial tcp: i/o timeout", none⟩

/-- A failure of the secure random source. -/
def noEntropy : Err := ⟨"crypto/rand: no entropy", none⟩

/-- A provider that answers each kind of request with a fixed response, loads a
configuration of the given region, and draws the bytes `a0 a1 a2 …`. -/
def provider (region : String) (head create versioning put retention rand : Option Err) :
    Provider :=
  { LoadDefaultConfig := fun _ => .ok ⟨region⟩
    respond := fun _ c =>
      match c with
      | .HeadBucket _ => head
      | .CreateBucket _ _ _ _ => create
      | .PutBucketVersioning _ _ => versioning
      | .PutObject _ _ _ => put
      | .PutObjectRetention _ _ _ _ => retention
    randFail := rand
    randStream := fun i => Fin.ofNat (0xa0 + i) }

end Scenario

/-! ## Hex encoding -/

set_option maxRecDepth 100000

theorem hexDigit_injective : ∀ i j : Fin 16, hexDigit i = hexDigit j → i = j := by decide

theorem hexDigit_mem : ∀ i : Fin 16, hexDigit i ∈ hextable := by decide

theorem nibbles (v : Byte) : v.val >>> 4 < 16 ∧ v.val &&& 0x0f < 16 ∧
    v.val = 16 * (v.val >>> 4) + (v.val &&& 0x0f) := by
  revert v; decide

theorem encodeByte_injective (v w : Byte)
    (hhi : hexDigit (v.val >>> 4) = hexDigit (w.val >>> 4))
    (hlo : hexDigit (v.val &&& 0x0f) = hexDigit (w.val &&& 0x0f)) : v = w := by
  obtain ⟨v1, v2, v3⟩ := nibbles v
  obtain ⟨w1, w2, w3⟩ := nibbles w
  have h1 := hexDigit_injective ⟨_, v1⟩ ⟨_, w1⟩ hhi
  have h2 := hexDigit_injective ⟨_, v2⟩ ⟨_, w2⟩ hlo
  simp only [Fin.mk.injEq] at h1 h2
  apply Fin.ext
  omega

/-- Digits of `EncodeToString`, as a list. -/
theorem EncodeToString_data (src : List Byte) :
    (EncodeToString src).data =
      src.flatMap fun v => [hexDigit (v.val >>> 4), hexDigit (v.val &&& 0x0f)] := rfl

/-- Two digits per byte. -/
theorem EncodeToString_length (src : List Byte) :
    (EncodeToString src).length = 2 * src.length := by
  show (EncodeToString src).data.length = 2 * src.length
  rw [EncodeToString_data]
  induction src with
  | nil => rfl
  | cons v vs ih =>
    simp only [List.flatMap_cons, List.length_append, List.length_cons, List.length_nil, ih]
    omega

/-- Every digit is one of `0`-`9`, `a`-`f`. -/
theorem EncodeToString_hex (src : List Byte) :
    ∀ c ∈ (EncodeToString src).data, c ∈ hextable := by
  rw [EncodeToString_data]
  intro c hc
  simp only [List.mem_flatMap, List.mem_cons, List.mem_singleton, List.not_mem_nil,
    or_false] at hc
  obtain ⟨v, -, rfl | rfl⟩ := hc
  · exact hexDigit_mem ⟨_, (nibbles v).1⟩
  · exact hexDigit_mem ⟨_, (nibbles v).2.1⟩

/-- Encodings of equally many bytes, each followed by any text, agree only when
the bytes and the texts agree. -/
theorem encode_append_injective :
    ∀ (r1 r2 : List Byte) (t1 t2 : List Char), r1.length = r2.length →
      (r1.flatMap fun v => [hexDigit (v.val >>> 4), hexDigit (v.val &&& 0x0f)]) ++ t1 =
        (r2.flatMap fun v => [hexDigit (v.val >>> 4), hexDigit (v.val &&& 0x0f)]) ++ t2 →
      r1 = r2 ∧ t1 = t2
  | [], [], t1, t2, _, h => ⟨rfl, by simpa using h⟩
  | [], _ :: _, _, _, hl, _ => by simp at hl
  | _ :: _, [], _, _, hl, _ => by simp at hl
  | v :: r1, w :: r2, t1, t2, hl, h => by
    simp only [List.flatMap_cons, List.cons_append, List.nil_append, List.cons.injEq,
      List.length_cons, Nat.add_right_cancel_iff] at h hl
    obtain ⟨hhi, hlo, hrest⟩ := h
    obtain ⟨hr, ht⟩ := encode_append_injective r1 r2 t1 t2 hl hrest
    exact ⟨by rw [encodeByte_injective v w hhi hlo, hr], ht⟩

theorem uploadKey_data (r : List Byte) (identifier : String) :
    (uploadKey (EncodeToString r) identifier).data =
      (r.flatMap fun v => [hexDigit (v.val >>> 4), hexDigit (v.val &&& 0x0f)]) ++
        identifier.data := by
  unfold uploadKey
  rw [String.data_append, EncodeToString_data]

/-- C9. Key uniqueness comes from the random draw: for draws `r1`, `r2` of 6 bytes,
the key `hex(r) ++ identifier` is injective in the pair `(r, identifier)`; in
particular two calls with the identical identifier get different keys whenever
their draws differ. -/
theorem uploadKey_injective (r1 r2 : List Byte) (id1 id2 : String)
    (h1 : r1.length = 6) (h2 : r2.length = 6) :
    (uploadKey (EncodeToString r1) id1 = uploadKey (EncodeToString r2) id2 ↔
      r1 = r2 ∧ id1 = id2) ∧
    (id1 = id2 → r1 ≠ r2 →
      uploadKey (EncodeToString r1) id1 ≠ uploadKey (EncodeToString r2) id2) := by
  have key : uploadKey (EncodeToString r1) id1 = uploadKey (EncodeToString r2) id2 →
      r1 = r2 ∧ id1 = id2 := by
    intro h
    have hd := congrArg String.data h
    rw [uploadKey_data, uploadKey_data] at hd
    obtain ⟨hr, ht⟩ := encode_append_injective r1 r2 _ _ (h1.trans h2.symm) hd
    exact ⟨hr, String.ext ht⟩
  refine ⟨⟨key, ?_⟩, ?_⟩
  · rintro ⟨rfl, rfl⟩; rfl
  · intro _ hne h
    exact hne (key h).1

/-- Witness of C9: the draws `a0 … a5` and `a0 … a4 a6` under the identifier `file-id`. -/
theorem uploadKey_injective_witness :
    uploadKey (EncodeToString [0xa0, 0xa1, 0xa2, 0xa3, 0xa4, 0xa5]) "file-id" ≠
      uploadKey (EncodeToString [0xa0, 0xa1, 0xa2, 0xa3, 0xa4, 0xa6]) "file-id" :=
  (uploadKey_injective [0xa0, 0xa1, 0xa2, 0xa3, 0xa4, 0xa5] [0xa0, 0xa1, 0xa2, 0xa3, 0xa4, 0xa6]
    "file-id" "file-id" rfl rfl).2 rfl (by decide)

/-! ## The tail of `UploadFile` -/

@[simp]
theorem exportCredentials_calls (s3 : S3) (w : World) :
    (exportCredentials s3 w).calls = w.calls := by
  unfold exportCredentials; cases s3.AWSConfig <;> rfl

@[simp]
theorem exportCredentials_logs (s3 : S3) (w : World) :
    (exportCredentials s3 w).logs = w.logs := by
  unfold exportCredentials; cases s3.AWSConfig <;> rfl

/-- The calls issued by the tail of `UploadFile`. -/
theorem store_calls (p : Provider) (s3 : S3) (client : Client) (data : List Byte)
    (identifier : String) (w : World) :
    (UploadFile.store p s3 client data identifier w).world.calls =
      w.calls ++
        match p.randFail with
        | some _ => []
        | none =>
          Call.PutObject s3.BucketName
              (uploadKey (EncodeToString ((List.range 6).map p.randStream)) identifier) data ::
            match s3.RetentionConfig with
            | some rc =>
              if rc.Use then
                [Call.PutObjectRetention s3.BucketName
                  (uploadKey (EncodeToString ((List.range 6).map p.randStream)) identifier)
                  .Compliance rc.Time]
              else []
            | none => [] := by
  unfold UploadFile.store
  simp only [generateRandomString, randRead]
  cases p.randFail with
  | some e => simp
  | none =>
    cases s3.RetentionConfig with
    | none => simp [World.call, World.log]
    | some rc =>
      obtain ⟨use, t⟩ := rc
      cases use with
      | false => simp [World.call, World.log]
      | true =>
        simp only [if_true]
        split <;> simp [World.call, World.log]

/-- The outcome of the tail of `UploadFile`. -/
theorem store_outcome (p : Provider) (s3 : S3) (client : Client) (data : List Byte)
    (identifier : String) (w : World) :
    (UploadFile.store p s3 client data identifier w).outcome =
      match p.randFail with
      | some _ => .panicked
      | none => .returned
          (some (uploadKey (EncodeToString ((List.range 6).map p.randStream)) identifier))
          none := by
  unfold UploadFile.store
  simp only [generateRandomString, randRead]
  cases p.randFail with
  | some e => simp
  | none =>
    cases s3.RetentionConfig with
    | none => simp
    | some rc =>
      obtain ⟨use, t⟩ := rc
      cases use with
      | false => simp
      | true =>
        simp only [if_true]
        split <;> simp

/-! ## Claims about `UploadFile` -/

/-- C6. If the configuration loads and `HeadBucket` succeeds (the bucket exists and
is accessible), the provider calls of `UploadFile` contain no `CreateBucket` and no
`PutBucketVersioning`: `createBucket` is never invoked. -/
theorem existing_bucket_never_created (p : Provider) (s3 : S3) (env : List (String × String))
    (data : List Byte) (identifier : String) (cfg : AwsConfig)
    (hcfg : p.LoadDefaultConfig (exportCredentials s3 ⟨env, [], []⟩).env = .ok cfg)
    (hhead : p.respond (NewFromConfig cfg) (.HeadBucket s3.BucketName) = none) :
    ∀ c ∈ (UploadFile p s3 env data identifier).world.calls,
      (∀ b acl l loc, c ≠ .CreateBucket b acl l loc) ∧
      (∀ b st, c ≠ .PutBucketVersioning b st) := by
  unfold UploadFile
  simp only [hcfg, bucketExists, hhead]
  simp only [Bool.not_true, Bool.false_eq_true, if_false, store_calls]
  intro c hc
  cases hr : p.randFail <;> cases hrc : s3.RetentionConfig <;>
    simp [World.call, World.log, hr, hrc] at hc
  · rcases hc with rfl | rfl <;> simp
  · rename_i rc
    obtain ⟨use, t⟩ := rc
    cases use <;> simp at hc
    · rcases hc with rfl | rfl <;> simp
    · rcases hc with rfl | rfl | rfl <;> simp
  · subst hc; simp
  · subst hc; simp

/-- Witness of C6: the caller of `example.go` against a provider whose bucket exists. -/
theorem existing_bucket_never_created_witness :
    (Scenario.provider "eu-west-1" none none none none none none).respond
        (NewFromConfig ⟨"eu-west-1"⟩) (.HeadBucket "test-foo-xyz") = none ∧
    ∀ c ∈ (UploadFile (Scenario.provider "eu-west-1" none none none none none none)
        (Example.s 86400) [] Example.testData Example.fileIdentifier).world.calls,
      (∀ b acl l loc, c ≠ .CreateBucket b acl l loc) ∧
      (∀ b st, c ≠ .PutBucketVersioning b st) :=
  ⟨rfl, existing_bucket_never_created
    (Scenario.provider "eu-west-1" none none none none none none)
    (Example.s 86400) [] Example.testData Example.fileIdentifier ⟨"eu-west-1"⟩ rfl rfl⟩

/-- C3. With retention configured and enabled, if `PutObject` was called with key `k`
and succeeded and `PutObjectRetention` fails, then `PutObjectRetention` was called for
that same key and `UploadFile` still returns the key `k` with a `nil` error. -/
theorem retention_failure_keeps_key (p : Provider) (s3 : S3) (env : List (String × String))
    (data : List Byte) (identifier : String) (cfg : AwsConfig) (rc : RetentionConfig)
    (k : String) (e : Err)
    (hrc : s3.RetentionConfig = some rc) (huse : rc.Use = true)
    (hcfg : p.LoadDefaultConfig (exportCredentials s3 ⟨env, [], []⟩).env = .ok cfg)
    (hcalled : Call.PutObject s3.BucketName k data ∈
      (UploadFile p s3 env data identifier).world.calls)
    (_hput : p.respond (NewFromConfig cfg) (.PutObject s3.BucketName k data) = none)
    (_hret : p.respond (NewFromConfig cfg)
      (.PutObjectRetention s3.BucketName k .Compliance rc.Time) = some e) :
    Call.PutObjectRetention s3.BucketName k .Compliance rc.Time ∈
      (UploadFile p s3 env data identifier).world.calls ∧
    (UploadFile p s3 env data identifier).outcome = .returned (some k) none := by
  revert hcalled
  unfold UploadFile
  simp only [hcfg, bucketExists, createBucket, hrc]
  cases hr : p.randFail <;>
  cases hh : p.respond (NewFromConfig cfg) (.HeadBucket s3.BucketName) with
  | none =>
    simp [World.call, World.log, store_calls, store_outcome, hr, hrc, huse]
    try (intro hk; subst hk; simp)
  | some eh =>
    simp only []
    cases ha : eh.asAPIError with
    | none =>
      simp [World.call, World.log, store_calls, store_outcome, hr, hrc, huse]
      try (intro hk; subst hk; simp)
    | some t =>
      cases t with
      | NotFound =>
        simp only [Bool.not_false, if_true]
        cases hv : p.respond (NewFromConfig cfg) (.PutBucketVersioning s3.BucketName .Enabled)
          <;> cases hc : p.respond (NewFromConfig cfg)
            (.CreateBucket s3.BucketName .Private true s3.loadedConfig.Region)
          <;> simp [World.call, World.log, store_calls, store_outcome, hr, hrc, huse]
          <;> try (intro hk; subst hk; simp)
      | Other code =>
        simp [World.call, World.log, store_calls, store_outcome, hr, hrc, huse]
        try (intro hk; subst hk; simp)

/-- Witness of C3: the caller of `example.go`, the bucket exists, the upload succeeds
and the retention call is refused. -/
theorem retention_failure_keeps_key_witness :
    Call.PutObjectRetention "test-foo-xyz" "a0a1a2a3a4a5file-id" .Compliance 86400 ∈
      (UploadFile
        (Scenario.provider "eu-west-1" none none none none (some Scenario.accessDenied) none)
        (Example.s 86400) [] Example.testData Example.fileIdentifier).world.calls ∧
    (UploadFile
        (Scenario.provider "eu-west-1" none none none none (some Scenario.accessDenied) none)
        (Example.s 86400) [] Example.testData Example.fileIdentifier).outcome =
      .returned (some "a0a1a2a3a4a5file-id") none :=
  retention_failure_keeps_key
    (Scenario.provider "eu-west-1" none none none none (some Scenario.accessDenied) none)
    (Example.s 86400) [] Example.testData Example.fileIdentifier ⟨"eu-west-1"⟩ ⟨true, 86400⟩
    "a0a1a2a3a4a5file-id" Scenario.accessDenied rfl rfl rfl (by decide) rfl rfl

/-- C7. When `RetentionConfig` is present with `Use = false`, `UploadFile` never calls
`PutObjectRetention`, whatever the provider answers; and on the path where the bucket
is absent, `createBucket` has nevertheless called `PutBucketVersioning`. -/
theorem retention_disabled_never_locks (p : Provider) (s3 : S3) (env : List (String × String))
    (data : List Byte) (identifier : String) (rc : RetentionConfig)
    (hrc : s3.RetentionConfig = some rc) (huse : rc.Use = false) :
    (∀ b k m t, Call.PutObjectRetention b k m t ∉
      (UploadFile p s3 env data identifier).world.calls) ∧
    (∀ cfg e, p.LoadDefaultConfig (exportCredentials s3 ⟨env, [], []⟩).env = .ok cfg →
      p.respond (NewFromConfig cfg) (.HeadBucket s3.BucketName) = some e →
      e.asAPIError = some .NotFound →
      Call.PutBucketVersioning s3.BucketName .Enabled ∈
        (UploadFile p s3 env data identifier).world.calls) := by
  constructor
  · intro b k m t
    unfold UploadFile
    cases hcfg : p.LoadDefaultConfig (exportCredentials s3 ⟨env, [], []⟩).env with
    | error err => simp [hcfg, World.log]
    | ok cfg =>
      simp only [hcfg, bucketExists, createBucket, hrc]
      cases hr : p.randFail <;>
      cases hh : p.respond (NewFromConfig cfg) (.HeadBucket s3.BucketName) with
      | none => simp [World.call, World.log, store_calls, hr, hrc, huse]
      | some eh =>
        simp only []
        cases ha : eh.asAPIError with
        | none => simp [World.call, World.log, store_calls, hr, hrc, huse]
        | some ty =>
          cases ty with
          | NotFound =>
            simp only [Bool.not_false, if_true]
            cases hv : p.respond (NewFromConfig cfg)
                (.PutBucketVersioning s3.BucketName .Enabled)
              <;> cases hc : p.respond (NewFromConfig cfg)
                (.CreateBucket s3.BucketName .Private true s3.loadedConfig.Region)
              <;> simp [World.call, World.log, store_calls, hr, hrc, huse]
          | Other code => simp [World.call, World.log, store_calls, hr, hrc, huse]
  · intro cfg e hcfg hh ha
    unfold UploadFile
    simp only [hcfg, bucketExists, createBucket, hrc, hh, ha, Bool.not_false, if_true]
    cases hv : p.respond (NewFromConfig cfg) (.PutBucketVersioning s3.BucketName .Enabled)
      <;> cases hc : p.respond (NewFromConfig cfg)
        (.CreateBucket s3.BucketName .Private true s3.loadedConfig.Region)
      <;> simp [World.call, World.log, store_calls]

/-- Witness of C7: the caller of `example.go` with `Use` switched off. -/
theorem retention_disabled_never_locks_witness :
    (∀ b k m t, Call.PutObjectRetention b k m t ∉
      (UploadFile
        (Scenario.provider "eu-west-1" (some Scenario.notFound) none none none none none)
        { Example.s 86400 with RetentionConfig := some ⟨false, 86400⟩ } []
        Example.testData Example.fileIdentifier).world.calls) ∧
    Call.PutBucketVersioning "test-foo-xyz" .Enabled ∈
      (UploadFile
        (Scenario.provider "eu-west-1" (some Scenario.notFound) none none none none none)
        { Example.s 86400 with RetentionConfig := some ⟨false, 86400⟩ } []
        Example.testData Example.fileIdentifier).world.calls :=
  ⟨(retention_disabled_never_locks
      (Scenario.provider "eu-west-1" (some Scenario.notFound) none none none none none)
      { Example.s 86400 with RetentionConfig := some ⟨false, 86400⟩ } []
      Example.testData Example.fileIdentifier ⟨false, 86400⟩ rfl rfl).1,
    (retention_disabled_never_locks
      (Scenario.provider "eu-west-1" (some Scenario.notFound) none none none none none)
      { Example.s 86400 with RetentionConfig := some ⟨false, 86400⟩ } []
      Example.testData Example.fileIdentifier ⟨false, 86400⟩ rfl rfl).2
      ⟨"eu-west-1"⟩ Scenario.notFound rfl rfl rfl⟩

/-- C8. Absent-bucket scenario. When the configuration loads, `HeadBucket` reports
not-found, the creation calls succeed and the random source delivers, then among the
bucket and put calls the trace is one `HeadBucket`, one `CreateBucket`, one `PutObject`,
in this order; without a retention configuration that is the whole trace.  The key of
`PutObject` is the hex encoding of the 6 random bytes, 12 characters out of `0`-`9`,
`a`-`f`, immediately followed by the identifier, and `UploadFile` returns that same
key with a `nil` error (whatever `PutObject` answers). -/
theorem absent_bucket_scenario (p : Provider) (s3 : S3) (env : List (String × String))
    (data : List Byte) (identifier : String) (cfg : AwsConfig) (e : Err)
    (hcfg : p.LoadDefaultConfig (exportCredentials s3 ⟨env, [], []⟩).env = .ok cfg)
    (hhead : p.respond (NewFromConfig cfg) (.HeadBucket s3.BucketName) = some e)
    (hnf : e.asAPIError = some .NotFound)
    (hcreate : p.respond (NewFromConfig cfg)
      (.CreateBucket s3.BucketName .Private true s3.loadedConfig.Region) = none)
    (hvers : s3.RetentionConfig ≠ none →
      p.respond (NewFromConfig cfg) (.PutBucketVersioning s3.BucketName .Enabled) = none)
    (hrand : p.randFail = none) :
    (UploadFile p s3 env data identifier).world.calls.filter Call.isBucketOrPut =
      [.HeadBucket s3.BucketName,
        .CreateBucket s3.BucketName .Private true s3.loadedConfig.Region,
        .PutObject s3.BucketName
          (EncodeToString ((List.range 6).map p.randStream) ++ identifier) data] ∧
    (s3.RetentionConfig = none →
      (UploadFile p s3 env data identifier).world.calls =
        [.HeadBucket s3.BucketName,
          .CreateBucket s3.BucketName .Private true s3.loadedConfig.Region,
          .PutObject s3.BucketName
            (EncodeToString ((List.range 6).map p.randStream) ++ identifier) data]) ∧
    (EncodeToString ((List.range 6).map p.randStream)).length = 12 ∧
    (∀ c ∈ (EncodeToString ((List.range 6).map p.randStream)).data, c ∈ hextable) ∧
    (UploadFile p s3 env data identifier).outcome =
      .returned (some (EncodeToString ((List.range 6).map p.randStream) ++ identifier))
        none := by
  refine ⟨?_, ?_, ?_, EncodeToString_hex _, ?_⟩
  · unfold UploadFile
    simp only [hcfg, bucketExists, createBucket, hhead, hnf, hcreate, Bool.not_false, if_true]
    cases hrc : s3.RetentionConfig with
    | none =>
      simp [World.call, World.log, store_calls, hrand, hrc, uploadKey, Call.isBucketOrPut]
    | some rc =>
      obtain ⟨use, t⟩ := rc
      have hv := hvers (by simp [hrc])
      cases use <;>
        simp [hv, World.call, World.log, store_calls, hrand, hrc, uploadKey, Call.isBucketOrPut,
          List.filter_cons]
  · intro hrc
    unfold UploadFile
    simp only [hcfg, bucketExists, createBucket, hhead, hnf, hcreate, Bool.not_false, if_true]
    simp [World.call, World.log, store_calls, hrand, hrc, uploadKey]
  · rw [EncodeToString_length]; simp
  · unfold UploadFile
    simp only [hcfg, bucketExists, createBucket, hhead, hnf, hcreate, Bool.not_false, if_true]
    cases hrc : s3.RetentionConfig with
    | none => simp [store_outcome, hrand, uploadKey]
    | some rc =>
      have hv := hvers (by simp [hrc])
      simp [hv, store_outcome, hrand, uploadKey]

/-- Witness of C8: payload `this is some data`, identifier `file-id`, no retention,
bucket absent. -/
theorem absent_bucket_scenario_witness :
    (UploadFile (Scenario.provider "" (some Scenario.notFound) none none none none none)
        Example.plain [] Example.testData "file-id").world.calls =
      [.HeadBucket "test-foo-xyz", .CreateBucket "test-foo-xyz" .Private true "",
        .PutObject "test-foo-xyz" "a0a1a2a3a4a5file-id" Example.testData] ∧
    (UploadFile (Scenario.provider "" (some Scenario.notFound) none none none none none)
        Example.plain [] Example.testData "file-id").outcome =
      .returned (some "a0a1a2a3a4a5file-id") none :=
  have h := absent_bucket_scenario
    (Scenario.provider "" (some Scenario.notFound) none none none none none)
    Example.plain [] Example.testData "file-id" ⟨""⟩ Scenario.notFound rfl rfl rfl rfl
    (fun h => absurd rfl h) rfl
  ⟨h.2.1 rfl, h.2.2.2.2⟩

/-! ## Where the code departs from its contract -/

/-- C1. The bucket exists and `PutObject` is refused with `accessDenied`: the error is
assigned and never read, so `UploadFile` returns the key with a `nil` error instead of
no key and `accessDenied`. -/
theorem putObject_error_is_dropped :
    (Scenario.provider "eu-west-1" none none none (some Scenario.accessDenied) none none).respond
        (NewFromConfig ⟨"eu-west-1"⟩)
        (.PutObject "test-foo-xyz" "a0a1a2a3a4a5file-id" Example.testData) =
      some Scenario.accessDenied ∧
    (UploadFile
        (Scenario.provider "eu-west-1" none none none (some Scenario.accessDenied) none none)
        Example.plain [] Example.testData Example.fileIdentifier).world.calls =
      [.HeadBucket "test-foo-xyz",
        .PutObject "test-foo-xyz" "a0a1a2a3a4a5file-id" Example.testData] ∧
    (UploadFile
        (Scenario.provider "eu-west-1" none none none (some Scenario.accessDenied) none none)
        Example.plain [] Example.testData Example.fileIdentifier).outcome =
      .returned (some "a0a1a2a3a4a5file-id") none := by
  decide

/-- C2. `HeadBucket` fails with an error other than not-found, once with an API error
(`accessDenied`) and once with an error that is no API error (`timedOut`):
`bucketExists` reports `(true, err)`, the caller discards `err`, and `UploadFile` goes on
to `PutObject` and returns a key with a `nil` error. -/
theorem headBucket_error_is_dropped :
    ((bucketExists
        (Scenario.provider "eu-west-1" (some Scenario.accessDenied) none none none none none)
        { Example.plain with client := some (NewFromConfig ⟨"eu-west-1"⟩) } ⟨[], [], []⟩).1 =
      .ok (true, some Scenario.accessDenied)) ∧
    ((UploadFile
        (Scenario.provider "eu-west-1" (some Scenario.accessDenied) none none none none none)
        Example.plain [] Example.testData Example.fileIdentifier).world.calls =
      [.HeadBucket "test-foo-xyz",
        .PutObject "test-foo-xyz" "a0a1a2a3a4a5file-id" Example.testData]) ∧
    ((UploadFile
        (Scenario.provider "eu-west-1" (some Scenario.accessDenied) none none none none none)
        Example.plain [] Example.testData Example.fileIdentifier).outcome =
      .returned (some "a0a1a2a3a4a5file-id") none) ∧
    ((UploadFile
        (Scenario.provider "eu-west-1" (some Scenario.timedOut) none none none none none)
        Example.plain [] Example.testData Example.fileIdentifier).world.calls =
      [.HeadBucket "test-foo-xyz",
        .PutObject "test-foo-xyz" "a0a1a2a3a4a5file-id" Example.testData]) ∧
    ((UploadFile
        (Scenario.provider "eu-west-1" (some Scenario.timedOut) none none none none none)
        Example.plain [] Example.testData Example.fileIdentifier).outcome =
      .returned (some "a0a1a2a3a4a5file-id") none) := by
  decide

/-- C4. Retention is configured, the bucket is absent and `CreateBucket` is refused with
`accessDenied`: `createBucket` does not return there but goes on to call
`PutBucketVersioning`; when that call fails too (`timedOut`), the error returned by
`UploadFile` is `timedOut`, not `accessDenied`. -/
theorem createBucket_failure_still_calls_versioning :
    ((UploadFile
        (Scenario.provider "eu-west-1" (some Scenario.notFound) (some Scenario.accessDenied)
          none none none none)
        (Example.s 86400) [] Example.testData Example.fileIdentifier).world.calls =
      [.HeadBucket "test-foo-xyz", .CreateBucket "test-foo-xyz" .Private true "",
        .PutBucketVersioning "test-foo-xyz" .Enabled]) ∧
    ((UploadFile
        (Scenario.provider "eu-west-1" (some Scenario.notFound) (some Scenario.accessDenied)
          none none none none)
        (Example.s 86400) [] Example.testData Example.fileIdentifier).outcome =
      .returned none (some Scenario.accessDenied)) ∧
    ((UploadFile
        (Scenario.provider "eu-west-1" (some Scenario.notFound) (some Scenario.accessDenied)
          (some Scenario.timedOut) none none none)
        (Example.s 86400) [] Example.testData Example.fileIdentifier).world.calls =
      [.HeadBucket "test-foo-xyz", .CreateBucket "test-foo-xyz" .Private true "",
        .PutBucketVersioning "test-foo-xyz" .Enabled]) ∧
    ((UploadFile
        (Scenario.provider "eu-west-1" (some Scenario.notFound) (some Scenario.accessDenied)
          (some Scenario.timedOut) none none none)
        (Example.s 86400) [] Example.testData Example.fileIdentifier).outcome =
      .returned none (some Scenario.timedOut)) ∧
    Scenario.timedOut ≠ Scenario.accessDenied := by
  decide

/-- C5. The secure random source fails with `noEntropy`: `generateRandomString` returns
`(nil, err)`, the caller discards `err` and dereferences the `nil` string, so
`UploadFile` panics instead of returning no key and an error; `PutObject` is not
called. -/
theorem random_failure_panics :
    generateRandomString
        (Scenario.provider "eu-west-1" none none none none none (some Scenario.noEntropy)) 6 =
      (none, some Scenario.noEntropy) ∧
    (UploadFile
        (Scenario.provider "eu-west-1" none none none none none (some Scenario.noEntropy))
        Example.plain [] Example.testData Example.fileIdentifier).outcome = .panicked ∧
    (UploadFile
        (Scenario.provider "eu-west-1" none none none none none (some Scenario.noEntropy))
        Example.plain [] Example.testData Example.fileIdentifier).world.calls =
      [.HeadBucket "test-foo-xyz"] := by
  decide

/-- C10. The loaded configuration has region `eu-west-1` and the bucket is absent:
`UploadFile` builds the client from that configuration but never stores it in
`loadedConfig`, so `CreateBucket` carries the region of the receiver as it was before
the call (here the zero value, the empty string) and not `eu-west-1`; the ACL is
private and the object lock is enabled. -/
theorem createBucket_location_is_not_loaded_region :
    (UploadFile (Scenario.provider "eu-west-1" (some Scenario.notFound) none none none none none)
        Example.plain [] Example.testData Example.fileIdentifier).world.calls =
      [.HeadBucket "test-foo-xyz", .CreateBucket "test-foo-xyz" .Private true "",
        .PutObject "test-foo-xyz" "a0a1a2a3a4a5file-id" Example.testData] ∧
    (UploadFile (Scenario.provider "eu-west-1" (some Scenario.notFound) none none none none none)
        Example.plain [] Example.testData Example.fileIdentifier).s3.client =
      some (NewFromConfig ⟨"eu-west-1"⟩) ∧
    (UploadFile (Scenario.provider "eu-west-1" (some Scenario.notFound) none none none none none)
        Example.plain [] Example.testData Example.fileIdentifier).s3.loadedConfig =
      AwsConfig.zero := by
  decide

end S3Uploader
